import Mathlib

/-!
Verification development for the product catalog service
(`service/models.py`, `service/routes.py`).

The development shallowly embeds the Python code:
mutation of `self` inside `Product.deserialize` becomes explicit state
passing, Python exceptions become an explicit error component, and the
Python `decimal.Decimal` values reachable from this code base are embedded
as an integer mantissa with a decimal scale.
-/

namespace ProductStore

/-- The closed enumeration of product categories (`Category` in
`service/models.py`). -/
inductive Category where
  | UNKNOWN
  | CLOTHS
  | FOOD
  | HOUSEWARES
  | AUTOMOTIVE
  | TOOLS
deriving DecidableEq, Repr

/-- The numeric code of each `Category` member, as declared in the source. -/
def Category.code : Category → Nat
  | .UNKNOWN => 0
  | .CLOTHS => 1
  | .FOOD => 2
  | .HOUSEWARES => 3
  | .AUTOMOTIVE => 4
  | .TOOLS => 5

/-- `Category.<member>.name` in Python: the symbolic name of the member. -/
def Category.pyName : Category → String
  | .UNKNOWN => "UNKNOWN"
  | .CLOTHS => "CLOTHS"
  | .FOOD => "FOOD"
  | .HOUSEWARES => "HOUSEWARES"
  | .AUTOMOTIVE => "AUTOMOTIVE"
  | .TOOLS => "TOOLS"

/-- Embedding of Python `decimal.Decimal` values reachable from this code
base: a fixed-point number `mant / 10 ^ scale`.  Python's `Decimal`
preserves the scale (number of digits after the point) of the literal it
was built from, which is why the scale is part of the value. -/
structure Decimal where
  mant : Int
  scale : Nat
deriving DecidableEq, Repr

/-! ### Decimal digits -/

/-- The character for decimal digit `d` (`d < 10`): `Char.ofNat (48 + d)`
is one of the characters 0 through 9. -/
def digitChar (d : Nat) : Char := Char.ofNat (48 + d)

/-- The digit value of an ASCII digit character, `none` otherwise. -/
def charDigit (c : Char) : Option Nat :=
  if 48 ≤ c.toNat ∧ c.toNat ≤ 57 then some (c.toNat - 48) else none

/-- The value of a big-endian list of decimal digits. -/
def valueBE (l : List Nat) : Nat := l.foldl (fun a d => 10 * a + d) 0

/-- Fuel-driven big-endian decimal digits of a natural number
(empty for zero). -/
def natDigitsBEAux : Nat → Nat → List Nat
  | 0, _ => []
  | fuel + 1, n =>
      if n = 0 then [] else natDigitsBEAux fuel (n / 10) ++ [n % 10]

/-- Big-endian decimal digits of a natural number (empty for zero). -/
def natDigitsBE (n : Nat) : List Nat := natDigitsBEAux n n

/-- The digits of `n` left-padded with zeros so that at least `scale + 1`
digits are present (so a decimal point can be placed `scale` digits from
the right, with at least one digit before it). -/
def padDigits (scale n : Nat) : List Nat :=
  List.replicate (scale + 1 - (natDigitsBE n).length) 0 ++ natDigitsBE n

/-! ### `str` of a Decimal

Python's `str` on the `Decimal` values built by this code base prints the
optional sign, the integral digits, and — when the scale is positive — a
point followed by exactly `scale` fractional digits.
-/

/-- The characters of Python's `str` of an embedded `Decimal` value. -/
def decToChars (d : Decimal) : List Char :=
  let padded := padDigits d.scale d.mant.natAbs
  let ip := padded.take (padded.length - d.scale)
  let fp := padded.drop (padded.length - d.scale)
  (if d.mant < 0 then ['-'] else []) ++ ip.map digitChar ++
    (if d.scale = 0 then [] else '.' :: fp.map digitChar)

/-- Python's `str` of an embedded `Decimal` value. -/
def decToString (d : Decimal) : String := String.mk (decToChars d)

/-! ### The `Decimal` string constructor

`Decimal(s)` for a string `s`, restricted to plain fixed-point literals:
an optional sign, integral digits, and an optional point with fractional
digits, at least one digit in total.  (Exponent forms, `NaN`/`Infinity`
and surrounding whitespace, which the Python constructor also accepts,
are outside this embedding; no value produced by this code base uses
them.)  A string outside the grammar raises `decimal.InvalidOperation`.
-/

/-- Strip a leading sign character: `true` for a leading minus. -/
def splitSign (cs : List Char) : Bool × List Char :=
  match cs with
  | c :: rest =>
      if c = '-' then (true, rest)
      else if c = '+' then (false, rest)
      else (false, cs)
  | [] => (false, cs)

/-- Split at the first point character: the characters before it, and
`some` of the characters after it when a point is present. -/
def splitDot : List Char → List Char × Option (List Char)
  | [] => ([], none)
  | c :: cs =>
      if c = '.' then ([], some cs)
      else
        let r := splitDot cs
        (c :: r.1, r.2)

/-- The digit values of a list of characters, `none` if any character is
not an ASCII digit. -/
def digitVals : List Char → Option (List Nat)
  | [] => some []
  | c :: cs =>
      match charDigit c, digitVals cs with
      | some d, some ds => some (d :: ds)
      | _, _ => none

/-- Apply a sign to a natural number. -/
def condNeg (neg : Bool) (n : Nat) : Int := if neg then -(n : Int) else (n : Int)

/-- Parse the body of a decimal literal (after the sign). -/
def parseCore (neg : Bool) (cs : List Char) : Option Decimal :=
  let sd := splitDot cs
  match sd.2 with
  | none =>
      match digitVals sd.1 with
      | some ds => if sd.1.isEmpty then none else some ⟨condNeg neg (valueBE ds), 0⟩
      | none => none
  | some fpcs =>
      match digitVals sd.1, digitVals fpcs with
      | some ds, some fs =>
          if sd.1.isEmpty && fpcs.isEmpty then none
          else some ⟨condNeg neg (valueBE (ds ++ fs)), fpcs.length⟩
      | _, _ => none

/-- Parse a plain fixed-point decimal literal, as Python's
`Decimal(string)` constructor does on this grammar. -/
def parseDecChars (cs : List Char) : Option Decimal :=
  let sr := splitSign cs
  parseCore sr.1 sr.2

/-- `Decimal(s)` on a Lean string. -/
def parseDec (s : String) : Option Decimal := parseDecChars s.data

/-! ### Round-trip of `str` and the `Decimal` constructor -/

theorem valueBE_append_singleton (l : List Nat) (d : Nat) :
    valueBE (l ++ [d]) = 10 * valueBE l + d := by
  simp [valueBE, List.foldl_append]

theorem valueBE_cons_zero (l : List Nat) : valueBE (0 :: l) = valueBE l := rfl

theorem valueBE_replicate_zero (k : Nat) (l : List Nat) :
    valueBE (List.replicate k 0 ++ l) = valueBE l := by
  induction k with
  | zero => rfl
  | succ k ih => simpa [List.replicate_succ] using ih

theorem natDigitsBEAux_value (fuel : Nat) :
    ∀ n, n ≤ fuel → valueBE (natDigitsBEAux fuel n) = n := by
  induction fuel with
  | zero =>
      intro n hn
      interval_cases n
      rfl
  | succ fuel ih =>
      intro n hn
      by_cases h0 : n = 0
      · simp [natDigitsBEAux, h0, valueBE]
      · have hdiv : n / 10 ≤ fuel := by
          have : n / 10 < n := Nat.div_lt_self (Nat.pos_of_ne_zero h0) (by omega)
          omega
        simp only [natDigitsBEAux, h0, if_false]
        rw [valueBE_append_singleton, ih _ hdiv]
        omega

theorem natDigitsBE_value (n : Nat) : valueBE (natDigitsBE n) = n :=
  natDigitsBEAux_value n n le_rfl

theorem natDigitsBEAux_lt_ten (fuel : Nat) :
    ∀ n d, d ∈ natDigitsBEAux fuel n → d < 10 := by
  induction fuel with
  | zero => intro n d hd; simp [natDigitsBEAux] at hd
  | succ fuel ih =>
      intro n d hd
      by_cases h0 : n = 0
      · simp [natDigitsBEAux, h0] at hd
      · simp only [natDigitsBEAux, h0, if_false, List.mem_append,
          List.mem_singleton] at hd
        rcases hd with hd | hd
        · exact ih _ _ hd
        · omega

theorem padDigits_value (scale n : Nat) : valueBE (padDigits scale n) = n := by
  rw [padDigits, valueBE_replicate_zero, natDigitsBE_value]

theorem padDigits_lt_ten (scale n : Nat) :
    ∀ d ∈ padDigits scale n, d < 10 := by
  intro d hd
  simp only [padDigits, List.mem_append, List.mem_replicate] at hd
  rcases hd with hd | hd
  · omega
  · exact natDigitsBEAux_lt_ten n n d hd

theorem padDigits_length (scale n : Nat) :
    scale + 1 ≤ (padDigits scale n).length := by
  simp only [padDigits, List.length_append, List.length_replicate]
  omega

theorem charDigit_digitChar {d : Nat} (hd : d < 10) :
    charDigit (digitChar d) = some d := by
  interval_cases d <;> decide

theorem digitChar_ne_dot {d : Nat} (hd : d < 10) : digitChar d ≠ '.' := by
  interval_cases d <;> decide

theorem digitChar_ne_dash {d : Nat} (hd : d < 10) : digitChar d ≠ '-' := by
  interval_cases d <;> decide

theorem digitChar_ne_plus {d : Nat} (hd : d < 10) : digitChar d ≠ '+' := by
  interval_cases d <;> decide

theorem digitVals_map_digitChar (l : List Nat) (h : ∀ d ∈ l, d < 10) :
    digitVals (l.map digitChar) = some l := by
  induction l with
  | nil => rfl
  | cons d l ih =>
      have hd : d < 10 := h d (List.mem_cons_self d l)
      have hl : ∀ x ∈ l, x < 10 := fun x hx => h x (List.mem_cons_of_mem d hx)
      simp [digitVals, charDigit_digitChar hd, ih hl]

theorem splitDot_no_dot (l : List Char) (h : ∀ c ∈ l, c ≠ '.') :
    splitDot l = (l, none) := by
  induction l with
  | nil => rfl
  | cons c cs ih =>
      have hc : c ≠ '.' := h c (List.mem_cons_self c cs)
      have hcs : ∀ x ∈ cs, x ≠ '.' := fun x hx => h x (List.mem_cons_of_mem c hx)
      simp [splitDot, hc, ih hcs]

theorem splitDot_append_dot (a r : List Char) (h : ∀ c ∈ a, c ≠ '.') :
    splitDot (a ++ '.' :: r) = (a, some r) := by
  induction a with
  | nil => simp [splitDot]
  | cons c cs ih =>
      have hc : c ≠ '.' := h c (List.mem_cons_self c cs)
      have hcs : ∀ x ∈ cs, x ≠ '.' := fun x hx => h x (List.mem_cons_of_mem c hx)
      simp [splitDot, hc, ih hcs]

theorem splitSign_not_sign (c : Char) (cs : List Char)
    (h1 : c ≠ '-') (h2 : c ≠ '+') :
    splitSign (c :: cs) = (false, c :: cs) := by
  simp [splitSign, h1, h2]

theorem splitSign_dash (cs : List Char) : splitSign ('-' :: cs) = (true, cs) := by
  simp [splitSign]

theorem parseCore_no_dot (neg : Bool) (l : List Nat) (hne : l ≠ [])
    (h10 : ∀ d ∈ l, d < 10) :
    parseCore neg (l.map digitChar) = some ⟨condNeg neg (valueBE l), 0⟩ := by
  have hdot : ∀ c ∈ l.map digitChar, c ≠ '.' := by
    intro c hc
    rcases List.mem_map.mp hc with ⟨d, hd, rfl⟩
    exact digitChar_ne_dot (h10 d hd)
  have hempty : (l.map digitChar).isEmpty = false := by
    cases l with
    | nil => exact absurd rfl hne
    | cons d l => rfl
  simp [parseCore, splitDot_no_dot _ hdot, digitVals_map_digitChar l h10, hempty]

theorem parseCore_dot (neg : Bool) (a b : List Nat) (hne : a ≠ [])
    (h10a : ∀ d ∈ a, d < 10) (h10b : ∀ d ∈ b, d < 10) :
    parseCore neg (a.map digitChar ++ '.' :: b.map digitChar) =
      some ⟨condNeg neg (valueBE (a ++ b)), b.length⟩ := by
  have hdot : ∀ c ∈ a.map digitChar, c ≠ '.' := by
    intro c hc
    rcases List.mem_map.mp hc with ⟨d, hd, rfl⟩
    exact digitChar_ne_dot (h10a d hd)
  have hempty : (a.map digitChar).isEmpty = false := by
    cases a with
    | nil => exact absurd rfl hne
    | cons d l => rfl
  simp [parseCore, splitDot_append_dot _ _ hdot, digitVals_map_digitChar a h10a,
    digitVals_map_digitChar b h10b, hempty]

theorem parseDecChars_eq (cs : List Char) :
    parseDecChars cs = parseCore (splitSign cs).1 (splitSign cs).2 := rfl

theorem condNeg_true (n : Nat) : condNeg true n = -(n : Int) := rfl

theorem condNeg_false (n : Nat) : condNeg false n = (n : Int) := rfl

/-- The decimal embedding round-trips: parsing the `str` output recovers
exactly the same mantissa and scale. -/
theorem parseDecChars_decToChars (d : Decimal) :
    parseDecChars (decToChars d) = some d := by
  obtain ⟨m, s⟩ := d
  have hlen := padDigits_length s m.natAbs
  have h10 := padDigits_lt_ten s m.natAbs
  have hval := padDigits_value s m.natAbs
  have hchars : decToChars ⟨m, s⟩ =
      (if m < 0 then ['-'] else []) ++
        ((padDigits s m.natAbs).take ((padDigits s m.natAbs).length - s)).map digitChar ++
        (if s = 0 then [] else
          '.' :: ((padDigits s m.natAbs).drop ((padDigits s m.natAbs).length - s)).map digitChar) := rfl
  set padded := padDigits s m.natAbs with hpadded
  set k := padded.length - s with hk
  have hk1 : 1 ≤ k := by omega
  have htk : (padded.take k).length = k := by rw [List.length_take]; omega
  have hfp_len : (padded.drop k).length = s := by rw [List.length_drop]; omega
  have hsplit : padded.take k ++ padded.drop k = padded := List.take_append_drop k padded
  have h10ip : ∀ x ∈ padded.take k, x < 10 := fun x hx => h10 x (List.mem_of_mem_take hx)
  have h10fp : ∀ x ∈ padded.drop k, x < 10 := fun x hx => h10 x (List.mem_of_mem_drop hx)
  have hipne : padded.take k ≠ [] := by
    intro hnil
    rw [hnil] at htk
    simp at htk
    omega
  obtain ⟨i0, ip', hip⟩ := List.exists_cons_of_ne_nil hipne
  have hi0 : i0 < 10 := h10ip i0 (by rw [hip]; exact List.mem_cons_self _ _)
  have hvalsplit : valueBE (padded.take k ++ padded.drop k) = m.natAbs := by
    rw [hsplit]; exact hval
  rw [hchars]
  by_cases hs : s = 0
  · -- integral value: no fractional part is printed
    rw [if_pos hs]
    have hipfull : padded.take k = padded := by
      rw [show k = padded.length by omega, List.take_length]
    by_cases hm : m < 0
    · rw [if_pos hm, List.append_nil]
      have hshape : ['-'] ++ (padded.take k).map digitChar =
          '-' :: (padded.take k).map digitChar := rfl
      rw [hshape]
      simp only [parseDecChars_eq, splitSign_dash]
      rw [parseCore_no_dot true _ hipne h10ip]
      simp only [Option.some.injEq, Decimal.mk.injEq]
      refine ⟨?_, by omega⟩
      rw [hipfull, hval, condNeg_true]
      omega
    · rw [if_neg hm, List.nil_append, List.append_nil]
      have hmap : (padded.take k).map digitChar = digitChar i0 :: ip'.map digitChar := by
        rw [hip]; rfl
      rw [hmap]
      simp only [parseDecChars_eq,
        splitSign_not_sign _ _ (digitChar_ne_dash hi0) (digitChar_ne_plus hi0)]
      rw [← hmap, parseCore_no_dot false _ hipne h10ip]
      simp only [Option.some.injEq, Decimal.mk.injEq]
      refine ⟨?_, by omega⟩
      rw [hipfull, hval, condNeg_false]
      omega
  · -- positive scale: a point and `s` fractional digits are printed
    rw [if_neg hs]
    by_cases hm : m < 0
    · rw [if_pos hm]
      have hshape : (['-'] ++ (padded.take k).map digitChar) ++
          ('.' :: (padded.drop k).map digitChar) =
          '-' :: ((padded.take k).map digitChar ++ '.' :: (padded.drop k).map digitChar) := by
        simp
      rw [hshape]
      simp only [parseDecChars_eq, splitSign_dash]
      rw [parseCore_dot true _ _ hipne h10ip h10fp]
      simp only [Option.some.injEq, Decimal.mk.injEq]
      refine ⟨?_, hfp_len⟩
      rw [hvalsplit, condNeg_true]
      omega
    · rw [if_neg hm, List.nil_append]
      have hshape : (padded.take k).map digitChar ++ '.' :: (padded.drop k).map digitChar =
          digitChar i0 :: (ip'.map digitChar ++ '.' :: (padded.drop k).map digitChar) := by
        rw [hip]; rfl
      rw [hshape]
      simp only [parseDecChars_eq,
        splitSign_not_sign _ _ (digitChar_ne_dash hi0) (digitChar_ne_plus hi0)]
      rw [← hshape, parseCore_dot false _ _ hipne h10ip h10fp]
      simp only [Option.some.injEq, Decimal.mk.injEq]
      refine ⟨?_, hfp_len⟩
      rw [hvalsplit, condNeg_false]
      omega

/-- Round-trip at the string level. -/
theorem parseDec_decToString (d : Decimal) : parseDec (decToString d) = some d := by
  rw [parseDec, decToString]
  exact parseDecChars_decToChars d

/-! ### Python values and the Product record

The values reachable in this code base: JSON scalars (`null`, booleans,
integers, strings) plus the two object kinds the model itself stores on a
record, `decimal.Decimal` values and `Category` members.
-/

/-- A Python value as it flows through this service. -/
inductive PyVal where
  | none
  | bool (b : Bool)
  | int (n : Int)
  | str (s : String)
  | dec (d : Decimal)
  | cat (c : Category)
deriving DecidableEq, Repr

/-- Python's `str(type(v))` for each embedded value kind. -/
def pyTypeStr : PyVal → String
  | .none => "<class \x27NoneType\x27>"
  | .bool _ => "<class \x27bool\x27>"
  | .int _ => "<class \x27int\x27>"
  | .str _ => "<class \x27str\x27>"
  | .dec _ => "<class \x27decimal.Decimal\x27>"
  | .cat _ => "<class \x27Category\x27>"

/-- Python's `str(v)` for each embedded value kind (`str` of a `Decimal`
is the canonical decimal string). -/
def pyStr : PyVal → String
  | .none => "None"
  | .bool b => if b then "True" else "False"
  | .int n => toString n
  | .str s => s
  | .dec d => decToString d
  | .cat c => "Category." ++ c.pyName

/-- Python truthiness (`if not self.id`): `None`, `False`, `0`, the empty
string and a zero `Decimal` are falsy; enum members are always truthy. -/
def pyTruthy : PyVal → Bool
  | .none => false
  | .bool b => b
  | .int n => n ≠ 0
  | .str s => s ≠ ""
  | .dec d => d.mant ≠ 0
  | .cat _ => true

/-- A decoded JSON body: a mapping from string keys to values. -/
abbrev PyDict := List (String × PyVal)

/-- `data[k]`: the value of the first entry with key `k`, `none` when the
key is absent (Python raises `KeyError` there). -/
def dictGet (data : PyDict) (k : String) : Option PyVal :=
  match data with
  | [] => Option.none
  | (k', v) :: rest => if k' = k then some v else dictGet rest k

/-- The exceptions that can leave `Product.deserialize` and
`Product.update`:  the service's own `DataValidationError`, and
`decimal.InvalidOperation`, which `deserialize`'s handlers
(`AttributeError`, `KeyError`, `TypeError`) do **not** catch, so it
escapes as an unclassified exception. -/
inductive PyErr where
  | dve (msg : String)
  | invalidOperation
deriving DecidableEq, Repr

/-- The exceptions the `Decimal` constructor itself can raise. -/
inductive DecErr where
  | typeError (msg : String)
  | invalidOperation
deriving DecidableEq, Repr

/-- `Decimal(v)` on an arbitrary value: numbers (including `bool`, a
subclass of `int`) convert exactly, strings are parsed
(`decimal.InvalidOperation` on failure), a `Decimal` passes through, and
every other type raises `TypeError`. -/
def pyDecimal : PyVal → Except DecErr Decimal
  | .int n => .ok ⟨n, 0⟩
  | .bool b => .ok ⟨if b then 1 else 0, 0⟩
  | .str s =>
      match parseDec s with
      | some d => .ok d
      | Option.none => .error .invalidOperation
  | .dec d => .ok d
  | .none => .error (.typeError "conversion from NoneType to Decimal is not supported")
  | .cat _ => .error (.typeError "conversion from Category to Decimal is not supported")

/-- The enumeration's member-name lookup — the member map consulted by
`getattr(Category, name)` after ordinary class attribute resolution: the
member whose symbolic name matches exactly, `none` otherwise.  This is
only the member portion of `getattr`: a string outside the six names may
still resolve to a non-member class or metaclass attribute (for example
`"__doc__"` or `"mro"`) instead of raising `AttributeError`; see
`pyGetattrCategory` and the resolution-function parameter of
`deserializeWith` for the full behavior. -/
def categoryFromName (s : String) : Option Category :=
  if s = "UNKNOWN" then some .UNKNOWN
  else if s = "CLOTHS" then some .CLOTHS
  else if s = "FOOD" then some .FOOD
  else if s = "HOUSEWARES" then some .HOUSEWARES
  else if s = "AUTOMOTIVE" then some .AUTOMOTIVE
  else if s = "TOOLS" then some .TOOLS
  else Option.none

/-- The fragment of Python's `getattr(Category, ·)` exercised by the
concrete payloads of this development.  `getattr` resolves class and
metaclass attributes before the enumeration's member map is consulted:
each of the six member names resolves to its member, and `"__doc__"` — a
representative non-member class attribute — resolves to the class
docstring `"Enumeration of valid Product Categories"` (the string on
line 55 of `service/models.py`).  A string that names no attribute of
the class raises `AttributeError`, embedded as `Option.none`; the
concrete strings this development evaluates on that branch
(`"SPACESHIP"`, `"INVALID_CATEGORY"`) are of that kind.  Python resolves
further non-member attributes inherited from `type`, `object` and `Enum`
(for example `"mro"` and `"__members__"`), which this fragment does not
enumerate; every theorem that quantifies over category strings is
therefore stated over an arbitrary resolution function rather than over
this fragment. -/
def pyGetattrCategory (s : String) : Option PyVal :=
  match categoryFromName s with
  | some c => some (PyVal.cat c)
  | Option.none =>
      if s = "__doc__" then some (PyVal.str "Enumeration of valid Product Categories")
      else Option.none

/-- The `Product` record: one row-backed object.  Attributes hold whatever
Python value was last assigned (the declared column types are only
enforced by the storage schema, not on assignment). -/
structure ProductRec where
  id : PyVal
  name : PyVal
  description : PyVal
  price : PyVal
  available : PyVal
  category : PyVal
deriving DecidableEq, Repr

/-- `Product()`: a fresh record with no attribute set. -/
def freshProduct : ProductRec :=
  ⟨.none, .none, .none, .none, .none, .none⟩

/-- The maximum length declared for the `name` column in the table schema
(`db.String(100)`). -/
def nameColumnLimit : Nat := 100

/-- The maximum length declared for the `description` column in the table
schema (`db.String(250)`). -/
def descriptionColumnLimit : Nat := 250

/-- `Product.deserialize(self, data)`, parameterized by the attribute
resolution `getattr(Category, ·)`: `getattrCat s = some v` when the
attribute resolves to the value `v` (a member for each of the six
symbolic names; a non-member class attribute, such as the docstring for
`"__doc__"`, for other resolvable names) and `Option.none` when Python
raises `AttributeError`.  The exact set of resolvable non-member names
comes from `type`/`object`/`Enum`, not from this code base, so theorems
quantify over the resolution function, constrained by the facts that are
certain (member names resolve to members).

The Python method assigns `self.name`, `self.description`, `self.price`,
`self.available` and `self.category` in that order inside a `try` block;
the embedding threads the partially mutated record explicitly and returns
it together with `Option.none` on success or `some` exception on failure
(so a failed call still reports the assignments made before the raise,
as in Python).

Error translation follows the source handlers: `KeyError` on a missing
key becomes `DataValidationError("Invalid product: missing <key>")`;
a non-boolean `available` raises
`DataValidationError("Invalid type for boolean [available]: <type>")`
directly; a category name that resolves to no attribute raises
`AttributeError`, caught into
`DataValidationError("Invalid attribute: <name>")`; `TypeError` (from
`Decimal` on a non-numeric non-string, or `getattr` on a non-string
attribute name) becomes
`DataValidationError("Invalid product: body of request contained bad or
no data ...")`; and `decimal.InvalidOperation` from a non-numeric price
string matches no handler and escapes. -/
def deserializeWith (getattrCat : String → Option PyVal)
    (self : ProductRec) (data : PyDict) : ProductRec × Option PyErr :=
  match dictGet data "name" with
  | Option.none => (self, some (.dve ("Invalid product: missing name")))
  | some vName =>
    let self1 := { self with name := vName }
    match dictGet data "description" with
    | Option.none => (self1, some (.dve ("Invalid product: missing description")))
    | some vDesc =>
      let self2 := { self1 with description := vDesc }
      match dictGet data "price" with
      | Option.none => (self2, some (.dve ("Invalid product: missing price")))
      | some vPrice =>
        match pyDecimal vPrice with
        | .error (.typeError msg) =>
            (self2, some (.dve ("Invalid product: body of request contained bad or no data " ++ msg)))
        | .error .invalidOperation => (self2, some .invalidOperation)
        | .ok d =>
          let self3 := { self2 with price := PyVal.dec d }
          match dictGet data "available" with
          | Option.none => (self3, some (.dve ("Invalid product: missing available")))
          | some vAvail =>
            match vAvail with
            | PyVal.bool b =>
              let self4 := { self3 with available := PyVal.bool b }
              match dictGet data "category" with
              | Option.none => (self4, some (.dve ("Invalid product: missing category")))
              | some vCat =>
                match vCat with
                | PyVal.str s =>
                  match getattrCat s with
                  | some v => ({ self4 with category := v }, Option.none)
                  | Option.none => (self4, some (.dve ("Invalid attribute: " ++ s)))
                | _ =>
                    (self4, some (.dve ("Invalid product: body of request contained bad or no data attribute name must be string")))
            | _ =>
                (self3, some (.dve ("Invalid type for boolean [available]: " ++ pyTypeStr vAvail)))

/-- `Product.deserialize(self, data)`: `deserializeWith` at the concrete
resolution fragment `pyGetattrCategory`. -/
def deserialize : ProductRec → PyDict → ProductRec × Option PyErr :=
  deserializeWith pyGetattrCategory

/-- `Product.serialize(self)`: the plain dictionary
`{id, name, description, price (string), available, category (name)}`.
`self.category.name` requires the attribute to hold an enumeration
member; on any other value Python would raise, embedded as
`Option.none`. -/
def serialize (self : ProductRec) : Option PyDict :=
  match self.category with
  | PyVal.cat c =>
      some [("id", self.id), ("name", self.name), ("description", self.description),
        ("price", PyVal.str (pyStr self.price)), ("available", self.available),
        ("category", PyVal.str c.pyName)]
  | _ => Option.none

/-! ### Persistence operations and routes -/

/-- The stored table: rows keyed by integer primary key. -/
abbrev Store := List (Int × ProductRec)

/-- `db.session.commit()` after mutating `self`: flush the record onto
its row. -/
def commitProduct (self : ProductRec) (store : Store) : Store :=
  store.map (fun kv => if PyVal.int kv.1 = self.id then (kv.1, self) else kv)

/-- `Product.update(self)`: raise `DataValidationError` on a falsy id
(before touching storage), otherwise commit.  The returned store is
unchanged whenever the error is reported. -/
def update (self : ProductRec) (store : Store) : Store × Option PyErr :=
  if pyTruthy self.id then (commitProduct self store, Option.none)
  else (store, some (.dve ("Update called with empty ID field")))

/-- `Product.find(product_id)`: the row with the given primary key. -/
def find (store : Store) (productId : Int) : Option ProductRec :=
  match store with
  | [] => Option.none
  | (k, p) :: rest => if k = productId then some p else find rest productId

/-- `Product.delete(self)` for the row with the given id:
`db.session.delete(self)` followed by commit removes the row. -/
def deleteFromStore (store : Store) (productId : Int) : Store :=
  store.filter (fun kv => kv.1 ≠ productId)

/-- `status.HTTP_204_NO_CONTENT` (the standard HTTP status table used by
`service.common.status`, which is outside `src/`). -/
def HTTP_204_NO_CONTENT : Nat := 204

/-- `status.HTTP_200_OK`. -/
def HTTP_200_OK : Nat := 200

/-- The `DELETE /products/<id>` route (`delete_product` in
`service/routes.py`): find the product, delete it when present, and
return 204 No Content either way. -/
def delete_product (store : Store) (productId : Int) : Store × Nat :=
  match find store productId with
  | some _ => (deleteFromStore store productId, HTTP_204_NO_CONTENT)
  | Option.none => (store, HTTP_204_NO_CONTENT)

/-- Python's `str.lower` restricted to ASCII letters (the route inputs in
scope are ASCII path segments). -/
def pyLowerChar (c : Char) : Char :=
  if 'A' ≤ c ∧ c ≤ 'Z' then Char.ofNat (c.toNat + 32) else c

/-- `avail.lower()` on a route path segment. -/
def pyLower (s : String) : String := String.mk (s.data.map pyLowerChar)

/-- The string-to-boolean coercion in `list_products_by_availability`:
`avail.lower() in ["true", "yes", "1"]`. -/
def available_value (avail : String) : Bool :=
  decide (pyLower avail ∈ ["true", "yes", "1"])

/-- `Product.find_by_availability(available)`: the rows whose `available`
attribute equals the given boolean. -/
def find_by_availability (store : Store) (available : Bool) : List ProductRec :=
  (store.filter (fun kv => kv.2.available = PyVal.bool available)).map (·.2)

/-- The `GET /products/availability/<avail>` route: coerce the path
segment to a boolean and filter. -/
def list_products_by_availability (store : Store) (avail : String) :
    List ProductRec × Nat :=
  (find_by_availability store (available_value avail), HTTP_200_OK)

/-- The valid-product payload used in the repository's own
`test_deserialize_success` test, with the price `"19.99"` of the
price-precision property. -/
def demoData : PyDict :=
  [("name", PyVal.str "Test Product"), ("description", PyVal.str "Test description"),
   ("price", PyVal.str "19.99"), ("available", PyVal.bool true),
   ("category", PyVal.str "FOOD")]

/-- A payload identical to `demoData` except that the price string does
not parse as a decimal. -/
def badPriceData : PyDict :=
  [("name", PyVal.str "Test Product"), ("description", PyVal.str "Test description"),
   ("price", PyVal.str "abc"), ("available", PyVal.bool true),
   ("category", PyVal.str "FOOD")]

/-- The list of the six symbolic category names. -/
def categoryNames : List String :=
  ["UNKNOWN", "CLOTHS", "FOOD", "HOUSEWARES", "AUTOMOTIVE", "TOOLS"]

/-! ### Helper lemmas -/

theorem categoryFromName_pyName (c : Category) :
    categoryFromName c.pyName = some c := by
  cases c <;> rfl

theorem categoryFromName_eq_none {s : String} (h : s ∉ categoryNames) :
    categoryFromName s = Option.none := by
  simp only [categoryNames, List.mem_cons, List.not_mem_nil, or_false, not_or] at h
  obtain ⟨h1, h2, h3, h4, h5, h6⟩ := h
  simp [categoryFromName, h1, h2, h3, h4, h5, h6]

theorem pyGetattrCategory_pyName (c : Category) :
    pyGetattrCategory c.pyName = some (PyVal.cat c) := by
  cases c <;> rfl

theorem pyGetattrCategory_of_member {s : String} {c : Category}
    (h : categoryFromName s = some c) :
    pyGetattrCategory s = some (PyVal.cat c) := by
  simp [pyGetattrCategory, h]

theorem find_deleteFromStore (store : Store) (pid : Int) :
    find (deleteFromStore store pid) pid = Option.none := by
  induction store with
  | nil => rfl
  | cons kv rest ih =>
      obtain ⟨k, p⟩ := kv
      by_cases hk : k = pid
      · simpa [deleteFromStore, List.filter_cons, hk] using ih
      · simpa [deleteFromStore, List.filter_cons, hk, find] using ih

/-! ### Claims -/

/-- C1: for every valid Product `p` (string name and description, decimal
price, boolean availability, enumeration category), serializing and then
deserializing the resulting mapping into any record `q` succeeds and
reproduces the `name`, `description`, `price`, `available` and `category`
of `p` exactly; the `id` attribute is left to the caller (deserialization
never assigns it). -/
theorem roundTrip_serialize_deserialize (p q : ProductRec) (nm dsc : String)
    (d : Decimal) (b : Bool) (c : Category)
    (hname : p.name = PyVal.str nm) (hdesc : p.description = PyVal.str dsc)
    (hprice : p.price = PyVal.dec d) (havail : p.available = PyVal.bool b)
    (hcat : p.category = PyVal.cat c) :
    serialize p = some [("id", p.id), ("name", p.name), ("description", p.description),
        ("price", PyVal.str (decToString d)), ("available", PyVal.bool b),
        ("category", PyVal.str c.pyName)] ∧
    (deserialize q [("id", p.id), ("name", p.name), ("description", p.description),
        ("price", PyVal.str (decToString d)), ("available", PyVal.bool b),
        ("category", PyVal.str c.pyName)]).2 = Option.none ∧
    (deserialize q [("id", p.id), ("name", p.name), ("description", p.description),
        ("price", PyVal.str (decToString d)), ("available", PyVal.bool b),
        ("category", PyVal.str c.pyName)]).1.name = p.name ∧
    (deserialize q [("id", p.id), ("name", p.name), ("description", p.description),
        ("price", PyVal.str (decToString d)), ("available", PyVal.bool b),
        ("category", PyVal.str c.pyName)]).1.description = p.description ∧
    (deserialize q [("id", p.id), ("name", p.name), ("description", p.description),
        ("price", PyVal.str (decToString d)), ("available", PyVal.bool b),
        ("category", PyVal.str c.pyName)]).1.price = p.price ∧
    (deserialize q [("id", p.id), ("name", p.name), ("description", p.description),
        ("price", PyVal.str (decToString d)), ("available", PyVal.bool b),
        ("category", PyVal.str c.pyName)]).1.available = p.available ∧
    (deserialize q [("id", p.id), ("name", p.name), ("description", p.description),
        ("price", PyVal.str (decToString d)), ("available", PyVal.bool b),
        ("category", PyVal.str c.pyName)]).1.category = p.category ∧
    (deserialize q [("id", p.id), ("name", p.name), ("description", p.description),
        ("price", PyVal.str (decToString d)), ("available", PyVal.bool b),
        ("category", PyVal.str c.pyName)]).1.id = q.id := by
  have hdes : deserialize q [("id", p.id), ("name", p.name), ("description", p.description),
      ("price", PyVal.str (decToString d)), ("available", PyVal.bool b),
      ("category", PyVal.str c.pyName)] =
      ({ q with
          name := p.name, description := p.description, price := PyVal.dec d,
          available := PyVal.bool b, category := PyVal.cat c }, Option.none) := by
    simp [deserialize, deserializeWith, dictGet, pyDecimal, parseDec_decToString,
      pyGetattrCategory_pyName]
  refine ⟨?_, ?_, ?_, ?_, ?_, ?_, ?_, ?_⟩
  · simp [serialize, hcat, hprice, havail, pyStr]
  · rw [hdes]
  · rw [hdes]
  · rw [hdes]
  · rw [hdes]; exact hprice.symm
  · rw [hdes]; exact havail.symm
  · rw [hdes]; exact hcat.symm
  · rw [hdes]

/-- A concrete valid product used to instantiate the round-trip. -/
def demoProduct : ProductRec :=
  ⟨PyVal.int 1, PyVal.str "Hat", PyVal.str "A red hat", PyVal.dec ⟨1999, 2⟩,
   PyVal.bool true, PyVal.cat Category.FOOD⟩

/-- Witness for C1: the round-trip at a concrete valid product. -/
theorem roundTrip_serialize_deserialize_witness :
    serialize demoProduct =
      some [("id", PyVal.int 1), ("name", PyVal.str "Hat"),
        ("description", PyVal.str "A red hat"), ("price", PyVal.str "19.99"),
        ("available", PyVal.bool true), ("category", PyVal.str "FOOD")] ∧
    (deserialize freshProduct [("id", PyVal.int 1), ("name", PyVal.str "Hat"),
        ("description", PyVal.str "A red hat"), ("price", PyVal.str "19.99"),
        ("available", PyVal.bool true), ("category", PyVal.str "FOOD")]).2 = Option.none := by
  have h := roundTrip_serialize_deserialize demoProduct freshProduct "Hat" "A red hat"
    ⟨1999, 2⟩ true Category.FOOD rfl rfl rfl rfl rfl
  exact ⟨h.1, h.2.1⟩

/-- The payload of the repository's `test_deserialize_invalid_available`
test: valid fields except `available` being the string `"yes"`. -/
def availYesData : PyDict :=
  [("name", PyVal.str "Test Product"), ("description", PyVal.str "Test description"),
   ("price", PyVal.str "10.00"), ("available", PyVal.str "yes"),
   ("category", PyVal.str "FOOD")]

/-- The same payload with the `name` key removed, as in
`test_create_product_with_no_name`. -/
def noNameData : PyDict :=
  [("description", PyVal.str "Test description"), ("price", PyVal.str "10.00"),
   ("available", PyVal.str "yes"), ("category", PyVal.str "FOOD")]

/-- C2 counterexample: a mapping whose `available` value is the
non-boolean string `"yes"` but whose `name` key is absent fails with the
missing-field error, not with a type error naming `available` — the
claim's first half does not hold for every such mapping. -/
theorem available_type_error_counterexample :
    (deserialize freshProduct noNameData).2 =
      some (PyErr.dve ("Invalid product: missing name")) ∧
    (deserialize freshProduct noNameData).2 ≠
      some (PyErr.dve ("Invalid type for boolean [available]: " ++ pyTypeStr (PyVal.str "yes"))) := by
  decide

/-- C2 (amended): for every mapping whose `name`, `description` and
`price` fields are present and whose price converts to a decimal, a
non-boolean `available` value fails with the type error naming the field
and the offending type, while a literal boolean (with a valid category)
succeeds and is stored. -/
theorem available_strict_bool (q : ProductRec) (data : PyDict) (vn vd vp : PyVal)
    (d : Decimal) (v : PyVal)
    (hname : dictGet data "name" = some vn)
    (hdesc : dictGet data "description" = some vd)
    (hprice : dictGet data "price" = some vp)
    (hpd : pyDecimal vp = Except.ok d)
    (havail : dictGet data "available" = some v) :
    ((∀ b, v ≠ PyVal.bool b) →
      (deserialize q data).2 =
        some (PyErr.dve ("Invalid type for boolean [available]: " ++ pyTypeStr v))) ∧
    (∀ b s c, v = PyVal.bool b →
      dictGet data "category" = some (PyVal.str s) → categoryFromName s = some c →
      (deserialize q data).2 = Option.none ∧
      (deserialize q data).1.available = PyVal.bool b) := by
  constructor
  · intro h
    cases v with
    | bool b => exact absurd rfl (h b)
    | none => simp [deserialize, deserializeWith, hname, hdesc, hprice, hpd, havail]
    | int n => simp [deserialize, deserializeWith, hname, hdesc, hprice, hpd, havail]
    | str s => simp [deserialize, deserializeWith, hname, hdesc, hprice, hpd, havail]
    | dec d2 => simp [deserialize, deserializeWith, hname, hdesc, hprice, hpd, havail]
    | cat c => simp [deserialize, deserializeWith, hname, hdesc, hprice, hpd, havail]
  · intro b s c hv hcat hcfn
    subst hv
    have hg := pyGetattrCategory_of_member hcfn
    constructor
    · simp [deserialize, deserializeWith, hname, hdesc, hprice, hpd, havail, hcat, hg]
    · simp [deserialize, deserializeWith, hname, hdesc, hprice, hpd, havail, hcat, hg]

/-- Witness for C2 (amended): the repository's own invalid-available
payload produces the type error naming the field and `str`. -/
theorem available_strict_bool_witness :
    (deserialize freshProduct availYesData).2 =
      some (PyErr.dve ("Invalid type for boolean [available]: " ++ pyTypeStr (PyVal.str "yes"))) :=
  (available_strict_bool freshProduct availYesData (PyVal.str "Test Product")
    (PyVal.str "Test description") (PyVal.str "10.00") ⟨1000, 2⟩ (PyVal.str "yes")
    rfl rfl rfl rfl rfl).1 (fun b h => PyVal.noConfusion h)

/-- C3: a price string that fails decimal parsing makes `deserialize`
raise `decimal.InvalidOperation`, which none of the method's handlers
catches — the failure escapes as an unclassified exception instead of the
structural/type `DataValidationError` of the error taxonomy. -/
theorem price_parse_failure_uncaught :
    (deserialize freshProduct badPriceData).2 = some PyErr.invalidOperation ∧
    ∀ msg, (deserialize freshProduct badPriceData).2 ≠ some (PyErr.dve msg) := by
  refine ⟨by decide, ?_⟩
  intro msg h
  have h0 : (deserialize freshProduct badPriceData).2 = some PyErr.invalidOperation := by
    decide
  rw [h0] at h
  exact PyErr.noConfusion (Option.some.inj h)

/-- The invalid-category payload of the repository's
`test_deserialize_invalid_category`-style scenario. -/
def unknownCategoryData : PyDict :=
  [("name", PyVal.str "Test Product"), ("description", PyVal.str "Test description"),
   ("price", PyVal.int 15), ("available", PyVal.bool true),
   ("category", PyVal.str "SPACESHIP")]

/-- The same payload with the category string `"__doc__"`, which
`getattr(Category, ·)` resolves to the class docstring instead of
raising `AttributeError`. -/
def docCategoryData : PyDict :=
  [("name", PyVal.str "Test Product"), ("description", PyVal.str "Test description"),
   ("price", PyVal.int 15), ("available", PyVal.bool true),
   ("category", PyVal.str "__doc__")]

/-- C4 counterexample: the category string `"__doc__"` is not one of the
six symbolic names, yet construction succeeds on the category field —
`getattr(Category, "__doc__")` resolves to the class docstring (a
non-member class attribute), which is assigned verbatim and no
invalid-attribute error is raised.  The claim's "any other string fails"
is therefore false of the code. -/
theorem category_lookup_counterexample :
    "__doc__" ∉ categoryNames ∧
    (deserialize freshProduct docCategoryData).2 = Option.none ∧
    (deserialize freshProduct docCategoryData).1.category =
      PyVal.str "Enumeration of valid Product Categories" := by
  decide

/-- C4 (amended): with the earlier fields present and well-typed, and for
any attribute resolution that maps each symbolic member name to its
member (as Python's `getattr` does), the category field behaves as
follows: one of the six symbolic names (case-sensitively) stores the
corresponding enumeration member and construction succeeds; a string on
which the resolution raises `AttributeError` fails with the
invalid-attribute error naming the bad value and leaves the category
unassigned; and a string that instead resolves to a non-member class
attribute (such as `"__doc__"` or `"mro"`) is assigned verbatim and
construction succeeds — so success is not limited to the six member
names. -/
theorem category_lookup_exact (g : String → Option PyVal) (q : ProductRec)
    (data : PyDict) (vn vd vp : PyVal) (d : Decimal) (b : Bool) (s : String)
    (hmem : ∀ c : Category, g c.pyName = some (PyVal.cat c))
    (hname : dictGet data "name" = some vn)
    (hdesc : dictGet data "description" = some vd)
    (hprice : dictGet data "price" = some vp)
    (hpd : pyDecimal vp = Except.ok d)
    (havail : dictGet data "available" = some (PyVal.bool b))
    (hcat : dictGet data "category" = some (PyVal.str s)) :
    (s ∈ categoryNames →
      ∃ c, Category.pyName c = s ∧
        (deserializeWith g q data).2 = Option.none ∧
        (deserializeWith g q data).1.category = PyVal.cat c) ∧
    (g s = Option.none →
      (deserializeWith g q data).2 = some (PyErr.dve ("Invalid attribute: " ++ s)) ∧
      (deserializeWith g q data).1.category = q.category) ∧
    (∀ v, g s = some v →
      (deserializeWith g q data).2 = Option.none ∧
      (deserializeWith g q data).1.category = v) := by
  refine ⟨?_, ?_, ?_⟩
  · intro hin
    simp only [categoryNames, List.mem_cons, List.not_mem_nil, or_false] at hin
    rcases hin with rfl | rfl | rfl | rfl | rfl | rfl
    · have hg : g "UNKNOWN" = some (PyVal.cat Category.UNKNOWN) := hmem Category.UNKNOWN
      exact ⟨Category.UNKNOWN, rfl, by
        simp [deserializeWith, hname, hdesc, hprice, hpd, havail, hcat, hg], by
        simp [deserializeWith, hname, hdesc, hprice, hpd, havail, hcat, hg]⟩
    · have hg : g "CLOTHS" = some (PyVal.cat Category.CLOTHS) := hmem Category.CLOTHS
      exact ⟨Category.CLOTHS, rfl, by
        simp [deserializeWith, hname, hdesc, hprice, hpd, havail, hcat, hg], by
        simp [deserializeWith, hname, hdesc, hprice, hpd, havail, hcat, hg]⟩
    · have hg : g "FOOD" = some (PyVal.cat Category.FOOD) := hmem Category.FOOD
      exact ⟨Category.FOOD, rfl, by
        simp [deserializeWith, hname, hdesc, hprice, hpd, havail, hcat, hg], by
        simp [deserializeWith, hname, hdesc, hprice, hpd, havail, hcat, hg]⟩
    · have hg : g "HOUSEWARES" = some (PyVal.cat Category.HOUSEWARES) := hmem Category.HOUSEWARES
      exact ⟨Category.HOUSEWARES, rfl, by
        simp [deserializeWith, hname, hdesc, hprice, hpd, havail, hcat, hg], by
        simp [deserializeWith, hname, hdesc, hprice, hpd, havail, hcat, hg]⟩
    · have hg : g "AUTOMOTIVE" = some (PyVal.cat Category.AUTOMOTIVE) := hmem Category.AUTOMOTIVE
      exact ⟨Category.AUTOMOTIVE, rfl, by
        simp [deserializeWith, hname, hdesc, hprice, hpd, havail, hcat, hg], by
        simp [deserializeWith, hname, hdesc, hprice, hpd, havail, hcat, hg]⟩
    · have hg : g "TOOLS" = some (PyVal.cat Category.TOOLS) := hmem Category.TOOLS
      exact ⟨Category.TOOLS, rfl, by
        simp [deserializeWith, hname, hdesc, hprice, hpd, havail, hcat, hg], by
        simp [deserializeWith, hname, hdesc, hprice, hpd, havail, hcat, hg]⟩
  · intro hres
    constructor
    · simp [deserializeWith, hname, hdesc, hprice, hpd, havail, hcat, hres]
    · simp [deserializeWith, hname, hdesc, hprice, hpd, havail, hcat, hres]
  · intro v hres
    constructor
    · simp [deserializeWith, hname, hdesc, hprice, hpd, havail, hcat, hres]
    · simp [deserializeWith, hname, hdesc, hprice, hpd, havail, hcat, hres]

/-- Witness for C4 at the concrete resolution fragment and the
non-attribute name `"SPACESHIP"`. -/
theorem category_lookup_exact_witness :
    (deserialize freshProduct unknownCategoryData).2 =
      some (PyErr.dve ("Invalid attribute: " ++ "SPACESHIP")) ∧
    (deserialize freshProduct unknownCategoryData).1.category = freshProduct.category :=
  (category_lookup_exact pyGetattrCategory freshProduct unknownCategoryData
    (PyVal.str "Test Product") (PyVal.str "Test description") (PyVal.int 15) ⟨15, 0⟩ true
    "SPACESHIP" (fun c => by cases c <;> rfl) rfl rfl rfl rfl rfl rfl).2.1 (by decide)

/-- C5: deserializing the payload with price string `"19.99"` succeeds
and serializing the result yields exactly the string `"19.99"` for the
price — no floating-point drift and no trailing-zero padding. -/
theorem price_precision_19_99 :
    (deserialize freshProduct demoData).2 = Option.none ∧
    serialize (deserialize freshProduct demoData).1 =
      some [("id", PyVal.none), ("name", PyVal.str "Test Product"),
        ("description", PyVal.str "Test description"), ("price", PyVal.str "19.99"),
        ("available", PyVal.bool true), ("category", PyVal.str "FOOD")] := by
  decide

/-- C6: calling `update` on a product whose id is unset raises the
precondition error naming the empty-id condition and leaves the store
untouched; on a product with an assigned (nonzero integer) id it does
not raise. -/
theorem update_empty_id_precondition (p : ProductRec) (store : Store) :
    (p.id = PyVal.none →
      update p store = (store, some (PyErr.dve ("Update called with empty ID field")))) ∧
    (∀ n : Int, p.id = PyVal.int n → n ≠ 0 → (update p store).2 = Option.none) := by
  constructor
  · intro h
    simp [update, pyTruthy, h]
  · intro n h hn
    simp [update, pyTruthy, h, hn]

/-- Witness for C6: a fresh record (id `None`) raises; a record with id 1
does not. -/
theorem update_empty_id_precondition_witness :
    update freshProduct [] = ([], some (PyErr.dve ("Update called with empty ID field"))) ∧
    (update { freshProduct with id := PyVal.int 1 } []).2 = Option.none :=
  ⟨(update_empty_id_precondition freshProduct []).1 rfl,
   (update_empty_id_precondition { freshProduct with id := PyVal.int 1 } []).2 1 rfl
     (by decide)⟩

/-- C7 counterexample: the route coercion maps `"TRUE"` — a string other
than `"true"`, `"yes"`, `"1"` — to `true`, so the coercion does not map
every other string to false. -/
theorem availability_coercion_counterexample :
    available_value "TRUE" = true ∧ "TRUE" ∉ (["true", "yes", "1"] : List String) := by
  decide

/-- C7 (amended): the coercion lowercases its input first; it maps a
string to true exactly when the lowercased string is one of `"true"`,
`"yes"`, `"1"`, and every other string to false. -/
theorem availability_coercion_lowercase (s : String) :
    available_value s = true ↔
      (pyLower s = "true" ∨ pyLower s = "yes" ∨ pyLower s = "1") := by
  simp [available_value]

/-- C8 counterexample: a mapping with valid name, description, price and
available values and the unrecognized (non-member) category string
`"__doc__"` does not produce a failed construction at all —
`getattr(Category, "__doc__")` resolves to the class docstring and
deserialization returns without raising — so the claim, which asserts a
raise with partial assignment for every such mapping, is false at this
input. -/
theorem deserialize_partial_counterexample :
    "__doc__" ∉ categoryNames ∧
    (deserialize freshProduct docCategoryData).2 = Option.none ∧
    (deserialize freshProduct docCategoryData).2 ≠
      some (PyErr.dve ("Invalid attribute: " ++ "__doc__")) := by
  decide

/-- C8 (amended): construction is not atomic on failure — with valid
name, description, price and available values and a category string on
which the attribute resolution raises `AttributeError` (one naming no
attribute of the enumeration class, such as `"SPACESHIP"`), the failed
deserialization has already assigned the four earlier fields onto the
record when it raises the invalid-attribute error, and only the category
keeps its prior value.  (Category strings that instead resolve to
non-member class attributes, such as `"__doc__"`, do not fail.) -/
theorem deserialize_partial_assignment (g : String → Option PyVal)
    (q : ProductRec) (data : PyDict)
    (nm dsc : String) (vp : PyVal) (d : Decimal) (b : Bool) (s : String)
    (hname : dictGet data "name" = some (PyVal.str nm))
    (hdesc : dictGet data "description" = some (PyVal.str dsc))
    (hprice : dictGet data "price" = some vp)
    (hpd : pyDecimal vp = Except.ok d)
    (havail : dictGet data "available" = some (PyVal.bool b))
    (hcat : dictGet data "category" = some (PyVal.str s))
    (hbad : g s = Option.none) :
    deserializeWith g q data =
      ({ q with
          name := PyVal.str nm, description := PyVal.str dsc, price := PyVal.dec d,
          available := PyVal.bool b },
       some (PyErr.dve ("Invalid attribute: " ++ s))) := by
  simp [deserializeWith, hname, hdesc, hprice, hpd, havail, hcat, hbad]

/-- Witness for C8 at a concrete payload with category `"SPACESHIP"`. -/
theorem deserialize_partial_assignment_witness :
    deserialize freshProduct unknownCategoryData =
      ({ freshProduct with
          name := PyVal.str "Test Product", description := PyVal.str "Test description",
          price := PyVal.dec ⟨15, 0⟩, available := PyVal.bool true },
       some (PyErr.dve ("Invalid attribute: " ++ "SPACESHIP"))) :=
  deserialize_partial_assignment pyGetattrCategory freshProduct unknownCategoryData
    "Test Product" "Test description" (PyVal.int 15) ⟨15, 0⟩ true "SPACESHIP"
    rfl rfl rfl rfl rfl rfl (by decide)

/-- C9: deserialization enforces no length limits — `name` and
`description` strings strictly longer than the 100- and 250-character
storage column limits are accepted without error and stored verbatim. -/
theorem deserialize_no_length_limit (q : ProductRec) (data : PyDict)
    (nm dsc : String) (vp : PyVal) (d : Decimal) (b : Bool) (s : String) (c : Category)
    (hname : dictGet data "name" = some (PyVal.str nm))
    (hlong1 : nameColumnLimit < nm.length)
    (hdesc : dictGet data "description" = some (PyVal.str dsc))
    (hlong2 : descriptionColumnLimit < dsc.length)
    (hprice : dictGet data "price" = some vp)
    (hpd : pyDecimal vp = Except.ok d)
    (havail : dictGet data "available" = some (PyVal.bool b))
    (hcat : dictGet data "category" = some (PyVal.str s))
    (hc : categoryFromName s = some c) :
    (deserialize q data).2 = Option.none ∧
    (deserialize q data).1.name = PyVal.str nm ∧
    (deserialize q data).1.description = PyVal.str dsc := by
  have hg := pyGetattrCategory_of_member hc
  refine ⟨?_, ?_, ?_⟩
  · simp [deserialize, deserializeWith, hname, hdesc, hprice, hpd, havail, hcat, hg]
  · simp [deserialize, deserializeWith, hname, hdesc, hprice, hpd, havail, hcat, hg]
  · simp [deserialize, deserializeWith, hname, hdesc, hprice, hpd, havail, hcat, hg]

/-- A 101-character name, one character over the `name` column limit. -/
def longName : String := String.mk (List.replicate 101 'x')

/-- A 251-character description, one character over the `description`
column limit. -/
def longDescription : String := String.mk (List.replicate 251 'y')

/-- A payload whose name and description exceed the column limits. -/
def longFieldsData : PyDict :=
  [("name", PyVal.str longName), ("description", PyVal.str longDescription),
   ("price", PyVal.str "10.00"), ("available", PyVal.bool true),
   ("category", PyVal.str "FOOD")]

set_option maxRecDepth 4096 in
/-- Witness for C9: the over-limit payload deserializes successfully. -/
theorem deserialize_no_length_limit_witness :
    (deserialize freshProduct longFieldsData).2 = Option.none ∧
    (deserialize freshProduct longFieldsData).1.name = PyVal.str longName ∧
    (deserialize freshProduct longFieldsData).1.description = PyVal.str longDescription :=
  deserialize_no_length_limit freshProduct longFieldsData longName longDescription
    (PyVal.str "10.00") ⟨1000, 2⟩ true "FOOD" Category.FOOD
    rfl (by decide) rfl (by decide) rfl rfl rfl rfl (by decide)

/-- C10: deleting an id that is not in the store leaves the store
unchanged and still reports 204 No Content; the route always reports 204,
and deleting the same id twice leaves the same store as deleting it
once. -/
theorem delete_absent_idempotent (store : Store) (pid : Int) :
    (find store pid = Option.none → delete_product store pid = (store, HTTP_204_NO_CONTENT)) ∧
    (delete_product store pid).2 = HTTP_204_NO_CONTENT ∧
    (delete_product (delete_product store pid).1 pid).1 = (delete_product store pid).1 := by
  refine ⟨?_, ?_, ?_⟩
  · intro h
    simp [delete_product, h]
  · cases hfind : find store pid <;> simp [delete_product, hfind]
  · cases hfind : find store pid with
    | none => simp [delete_product, hfind]
    | some p =>
        simp only [delete_product, hfind]
        simp [delete_product, find_deleteFromStore]

/-- Witness for C10 at the empty store: id 1 is absent and deletion
reports 204 with the store unchanged. -/
theorem delete_absent_idempotent_witness :
    find ([] : Store) 1 = Option.none ∧
    delete_product ([] : Store) 1 = ([], HTTP_204_NO_CONTENT) :=
  ⟨rfl, (delete_absent_idempotent ([] : Store) 1).1 rfl⟩

end ProductStore
